import Mathlib

/-!
# Verification of the `django-rsgi` request/response adapter

Shallow embedding of `src/django_rsgi/handler.py`: the header normalizer
(`get_normalized_header_name` with its module-level cache), the request
model builder (`RSGIRequest.__init__`), and the handler control flow
(`RSGIHandler.handle`, `create_request`, `send_response`).

Python strings are embedded as Lean `String` (sequences of characters);
Python `dict`-backed request metadata (`self.META`) as an association list
with insert-or-overwrite update; the RSGI headers object (per the
repository's `tests/mocks.py` shape) as a list of
`(name, values)` entries iterated in wire order, `get_all name` returning
`values`.
-/

namespace DjangoRsgi

/-- Python `s.removeprefix(p)`: drop `p` from the front of `s` when `s`
starts with `p`, otherwise return `s` unchanged. -/
def removePrefixOnce (s p : String) : String :=
  if p.data.isPrefixOf s.data then ⟨s.data.drop p.data.length⟩ else s

/-- Python `s.startswith(p)` on character sequences. -/
def startswith (s p : String) : Bool :=
  p.data.isPrefixOf s.data

/-- Python `s.upper()` restricted to its ASCII action (header names are
ASCII): uppercase each character. -/
def pyUpper (s : String) : String :=
  ⟨s.data.map Char.toUpper⟩

/-- Python `s.replace('-', '_')`: replace every hyphen by an underscore. -/
def replaceDashUnderscore (s : String) : String :=
  ⟨s.data.map (fun c => if c = '-' then '_' else c)⟩

/-- Python `s.rstrip("; ")`: strip every trailing character that is `';'`
or `' '`. -/
def rstripSemiSpace (s : String) : String :=
  ⟨(s.data.reverse.dropWhile (fun c => c = ';' || c = ' ')).reverse⟩

/-- Python `s.rsplit(":", 1)` followed by unpacking into two variables:
`some (before, after)` splitting at the LAST colon, `none` (Python raises
`ValueError`) when `s` contains no colon. -/
def rsplitColon1List : List Char → Option (List Char × List Char)
  | [] => none
  | c :: rest =>
    match rsplitColon1List rest with
    | some (a, b) => some (c :: a, b)
    | none => if c = ':' then some ([], rest) else none

/-- String version of `rsplitColon1List`. -/
def rsplitColon1 (s : String) : Option (String × String) :=
  (rsplitColon1List s.data).map (fun p => (⟨p.1⟩, ⟨p.2⟩))

/-- Decimal digit list to number, `none` if empty or a non-digit occurs. -/
def digitsToNat? (cs : List Char) : Option Nat :=
  if cs ≠ [] && cs.all Char.isDigit then
    some (cs.foldl (fun acc c => acc * 10 + (c.toNat - 48)) 0)
  else
    none

/-- Strip leading and trailing whitespace from a character list. -/
def stripWs (cs : List Char) : List Char :=
  ((cs.dropWhile Char.isWhitespace).reverse.dropWhile Char.isWhitespace).reverse

/-- Python `int(s)` on decimal string literals: optional surrounding
whitespace, optional sign, then decimal digits; `none` models the
`ValueError` raised on anything else (underscore digit grouping is not
modelled; no input in this development uses it). -/
def pyInt? (s : String) : Option Int :=
  match stripWs s.data with
  | '+' :: ds => (digitsToNat? ds).map Int.ofNat
  | '-' :: ds => (digitsToNat? ds).map (fun n => -(n : Int))
  | ds => (digitsToNat? ds).map Int.ofNat

/-! Header normalizer (`get_normalized_header_name` and `_HEADER_NAME_CACHE`) -/

/-- The cache-miss computation inside `get_normalized_header_name`:
`content-length`/`content-type` special cases, otherwise
`"HTTP_" + name.upper().replace('-', '_')`. -/
def computeHeaderName (name : String) : String :=
  if name = "content-length" then "CONTENT_LENGTH"
  else if name = "content-type" then "CONTENT_TYPE"
  else "HTTP_" ++ replaceDashUnderscore (pyUpper name)

/-- The memoization cache: an association list from wire names to META
keys (Python module-level dict, insertion order kept). -/
abbrev HeaderCache := List (String × String)

/-- The pre-populated module-level cache `_HEADER_NAME_CACHE`. -/
def initialHeaderNameCache : HeaderCache :=
  [("accept", "HTTP_ACCEPT"),
   ("accept-encoding", "HTTP_ACCEPT_ENCODING"),
   ("accept-language", "HTTP_ACCEPT_LANGUAGE"),
   ("authorization", "HTTP_AUTHORIZATION"),
   ("connection", "HTTP_CONNECTION"),
   ("content-length", "CONTENT_LENGTH"),
   ("content-type", "CONTENT_TYPE"),
   ("cookie", "HTTP_COOKIE"),
   ("host", "HTTP_HOST"),
   ("referer", "HTTP_REFERER"),
   ("user-agent", "HTTP_USER_AGENT"),
   ("x-real-ip", "HTTP_X_REAL_IP"),
   ("x-forwarded-for", "HTTP_X_FORWARDED_FOR"),
   ("x-forwarded-proto", "HTTP_X_FORWARDED_PROTO"),
   ("x-forwarded-host", "HTTP_X_FORWARDED_HOST"),
   ("x-forwarded-port", "HTTP_X_FORWARDED_PORT"),
   ("x-requested-with", "HTTP_X_REQUESTED_WITH")]

/-- Python `get_normalized_header_name(name)`: try the cache; on a miss compute
the key, memoize it, and return it. Returns the result together with the
updated cache (the Python global mutated in place). -/
def get_normalized_header_name (cache : HeaderCache) (name : String) :
    String × HeaderCache :=
  match cache.find? (fun p => p.1 = name) with
  | some p => (p.2, cache)
  | none =>
    let res := computeHeaderName name
    (res, cache ++ [(name, res)])

/-- A cache is consistent when every memoized entry agrees with the
cache-miss computation. -/
def CacheConsistent (cache : HeaderCache) : Prop :=
  ∀ p ∈ cache, p.2 = computeHeaderName p.1

instance : DecidablePred CacheConsistent := fun cache =>
  decidable_of_iff (∀ p ∈ cache, p.2 = computeHeaderName p.1) Iff.rfl

/-! Request metadata (`self.META`, a Python dict) -/

/-- A value stored in `META`: the code stores strings, the integer
`REMOTE_PORT`, and the two boolean `wsgi.*` capability flags. -/
inductive MetaVal where
  | str (s : String)
  | int (n : Int)
  | bool (b : Bool)
  deriving DecidableEq, Repr

/-- The `META` dict as an association list with unique keys (a Python dict whose
deterministic insertion behavior the builder relies on). -/
abbrev Meta := List (String × MetaVal)

/-- Assignment `meta[k] = v`: overwrite the existing binding for `k`, else append. -/
def Meta.set (m : Meta) (k : String) (v : MetaVal) : Meta :=
  match m with
  | [] => [(k, v)]
  | (k', v') :: rest =>
    if k' = k then (k, v) :: rest else (k', v') :: Meta.set rest k v

/-- Lookup `meta.get(k)` / `meta[k]`. -/
def Meta.get? (m : Meta) (k : String) : Option MetaVal :=
  (m.find? (fun p => p.1 = k)).map (fun p => p.2)

/-- Membership test `k in meta`. -/
def Meta.hasKey (m : Meta) (k : String) : Bool :=
  (m.find? (fun p => p.1 = k)).isSome

/-! Scope descriptor and the request model builder (`RSGIRequest.__init__`) -/

/-- The RSGI scope fields read by the adapter. Optional strings model
Python attributes that may be `None`; Python truthiness (`if client:`)
additionally treats `""` as absent where the code tests it. Headers
follow the shape of the repository's mock RSGI headers object: iteration
yields each distinct wire name once, in wire order, and `get_all name`
yields that name's list of values. -/
structure Scope where
  proto : String
  method : String
  path : String
  query_string : Option String
  client : Option String
  server : Option String
  root_path : String
  headers : List (String × List String)
  deriving Repr

/-- Python `get_script_prefix(scope)`: the `FORCE_SCRIPT_NAME` setting when
truthy (set and non-empty), else the scope's `root_path`
(`getattr(scope, "root_path", "")`). -/
def scriptPrefixValue (forceScriptName : Option String) (scope : Scope) : String :=
  match forceScriptName with
  | some s => if s.isEmpty then scope.root_path else s
  | none => scope.root_path

/-- Client-address parsing: `host, port = client.rsplit(":", 1)` with the
two `REMOTE_ADDR`/`REMOTE_HOST` assignments before `int(port)` is
evaluated; the `except ValueError` arm rebinds `REMOTE_ADDR` to the raw
string. Skipped entirely when `client` is falsy. -/
def setClientMeta (m : Meta) (client : Option String) : Meta :=
  match client with
  | none => m
  | some c =>
    if c.isEmpty then m
    else
      match rsplitColon1 c with
      | none => m.set "REMOTE_ADDR" (.str c)
      | some (host, port) =>
        let m := (m.set "REMOTE_ADDR" (.str host)).set "REMOTE_HOST" (.str host)
        match pyInt? port with
        | some n => m.set "REMOTE_PORT" (.int n)
        | none => m.set "REMOTE_ADDR" (.str c)

/-- Server-address parsing: on a successful `rsplit` both keys are set
(`str(port)` is the identity, `port` already being a string); a missing
colon sets only `SERVER_NAME`; a falsy `server` sets the
`"unknown"`/`"0"` sentinels. -/
def setServerMeta (m : Meta) (server : Option String) : Meta :=
  match server with
  | none => (m.set "SERVER_NAME" (.str "unknown")).set "SERVER_PORT" (.str "0")
  | some s =>
    if s.isEmpty then
      (m.set "SERVER_NAME" (.str "unknown")).set "SERVER_PORT" (.str "0")
    else
      match rsplitColon1 s with
      | none => m.set "SERVER_NAME" (.str s)
      | some (host, port) =>
        (m.set "SERVER_NAME" (.str host)).set "SERVER_PORT" (.str port)

/-- One iteration of the header normalization loop, after the name has
been normalized to `corrected`: join `get_all`'s values with `","`; for
`HTTP_COOKIE` right-strip `"; "` characters and merge into an existing
entry with `"; "`; for any other key already present merge with `","`;
then store. -/
def processHeaderEntry (m : Meta) (corrected : String) (values : List String) : Meta :=
  let value := String.intercalate "," values
  let value :=
    if corrected = "HTTP_COOKIE" then
      let v := rstripSemiSpace value
      match m.get? "HTTP_COOKIE" with
      | some (.str prev) => prev ++ "; " ++ v
      | _ => v
    else
      match m.get? corrected with
      | some (.str prev) => prev ++ "," ++ value
      | _ => value
  m.set corrected (.str value)

/-- The header normalization loop over wire order, threading the
module-level name cache through `get_normalized_header_name`. -/
def headersLoop (m : Meta) (cache : HeaderCache) :
    List (String × List String) → Meta × HeaderCache
  | [] => (m, cache)
  | (name, values) :: rest =>
    let r := get_normalized_header_name cache name
    headersLoop (processHeaderEntry m r.1 values) r.2 rest

/-- The attributes of the built request that the claims mention. -/
structure RSGIRequestModel where
  path : String
  script_name : String
  path_info : String
  method : String
  meta : Meta
  deriving Repr

/-- The `path_info` computed at the top of `__init__`: `removePrefixOnce`
only when the script name is non-empty. -/
def pathInfoOf (forceScriptName : Option String) (scope : Scope) : String :=
  if ¬(scriptPrefixValue forceScriptName scope).isEmpty then
    removePrefixOnce scope.path (scriptPrefixValue forceScriptName scope)
  else scope.path

/-- The `META` dict literal the builder starts from: request method,
query string (`scope.query_string or ""`), script name, path info, and
the two capability flags. -/
def metaSeed (forceScriptName : Option String) (scope : Scope) : Meta :=
  [("REQUEST_METHOD", .str scope.method),
   ("QUERY_STRING", .str (scope.query_string.getD "")),
   ("SCRIPT_NAME", .str (scriptPrefixValue forceScriptName scope)),
   ("PATH_INFO", .str (pathInfoOf forceScriptName scope)),
   ("wsgi.multithread", .bool true),
   ("wsgi.multiprocess", .bool true)]

/-- Python `RSGIRequest.__init__(scope, body_file)`, state after the header loop
(`_set_content_type_params` only derives `content_type`/`encoding`
attributes from `CONTENT_TYPE` and does not touch `META`; the body file
is carried separately by the handler model). Also returns the updated
module-level header-name cache. -/
def mkRSGIRequest (forceScriptName : Option String) (scope : Scope)
    (cache : HeaderCache) : RSGIRequestModel × HeaderCache :=
  let meta1 := setClientMeta (metaSeed forceScriptName scope) scope.client
  let meta2 := setServerMeta meta1 scope.server
  let hl := headersLoop meta2 cache scope.headers
  ({ path := scope.path,
     script_name := scriptPrefixValue forceScriptName scope,
     path_info := pathInfoOf forceScriptName scope,
     method := scope.method, meta := hl.1 }, hl.2)

/-! Response model and the response emitter (`RSGIHandler.send_response`) -/

/-- One chunk produced by a streaming response body: Python `str` parts go
through `send_str`, anything else through `send_bytes`. -/
inductive Chunk where
  | str (s : String)
  | bytes (b : List Nat)
  deriving DecidableEq, Repr

/-- The response attributes `send_response` reads. `fileName` is `some`
exactly when the response is a `FileResponse` whose `file_to_stream` has a
`name` attribute; `cookies` holds each cookie's `OutputString()`
wire-serialization in order. -/
structure Response where
  status_code : Nat
  headers : List (String × String)
  cookies : List String
  fileName : Option String
  streaming : Bool
  parts : List Chunk
  content : List Nat
  deriving DecidableEq, Repr

/-- A call of one of the transport's response primitives, as observed by
the transport. `response_file_raised` records a `response_file` attempt
that raised (delivering nothing). -/
inductive Emit where
  | response_file (status : Nat) (headers : List (String × String)) (file : String)
  | response_file_raised (status : Nat) (headers : List (String × String)) (file : String)
  | response_stream (status : Nat) (headers : List (String × String))
  | send_str (s : String)
  | send_bytes (b : List Nat)
  | response_bytes (status : Nat) (headers : List (String × String)) (body : List Nat)
  deriving DecidableEq, Repr

/-- Header flattening at the top of `send_response`: the response's own
header items, then one `Set-Cookie` pair per cookie. -/
def responseWireHeaders (r : Response) : List (String × String) :=
  r.headers ++ r.cookies.map (fun c => ("Set-Cookie", c))

/-- The generic (non-file) emission paths of `send_response`: the
streaming branch opens a stream then sends each chunk in production
order; the buffered branch is a single `response_bytes` call. -/
def genericEmits (r : Response) : List Emit :=
  if r.streaming then
    Emit.response_stream r.status_code (responseWireHeaders r) ::
      r.parts.map (fun c =>
        match c with
        | .str s => Emit.send_str s
        | .bytes b => Emit.send_bytes b)
  else
    [Emit.response_bytes r.status_code (responseWireHeaders r) r.content]

/-- Python `send_response(response, protocol)` as the sequence of transport
primitive calls it performs. `fileSendRaises` is the environment's choice
of whether the `protocol.response_file` attempt raises; the
`except Exception: pass` around it swallows the failure and falls
through to the generic paths. -/
def send_response (r : Response) (fileSendRaises : Bool) : List Emit :=
  match r.fileName with
  | some f =>
    if fileSendRaises then
      Emit.response_file_raised r.status_code (responseWireHeaders r) f ::
        genericEmits r
    else
      [Emit.response_file r.status_code (responseWireHeaders r) f]
  | none => genericEmits r

/-! Request creation errors and the handler (`create_request`, `handle`) -/

/-- Outcome of evaluating `self.request_class(scope, body_file)`: normal
return, or one of the two exception kinds `create_request` catches. -/
inductive BuildOutcome where
  | ok
  | unicodeDecodeError
  | requestDataTooBig
  deriving DecidableEq, Repr

/-- Modelled from the spec: the raising behavior of the framework request
machinery under `RSGIRequest.__init__` is not part of this repository's
sources; per the spec, construction fails with `PayloadTooLargeError`
(`RequestDataTooBig`) when the resolved body exceeds the configured
maximum size, and with `DecodingError` (`UnicodeDecodeError`) when header
or body bytes cannot be decoded as text. -/
def buildOutcomeOfSpec (bodyLen maxBodySize : Nat) (decodable : Bool) : BuildOutcome :=
  if bodyLen > maxBodySize then .requestDataTooBig
  else if ¬decodable then .unicodeDecodeError
  else .ok

/-- Django `HttpResponseBadRequest()`: status 400, empty body, default
`Content-Type` header. -/
def badRequestResponse : Response :=
  { status_code := 400,
    headers := [("Content-Type", "text/html; charset=utf-8")],
    cookies := [], fileName := none, streaming := false, parts := [],
    content := [] }

/-- Django `HttpResponse("413 Payload too large", status=413)`: the fixed
plain-text body as bytes, default `Content-Type` header. -/
def payloadTooLargeResponse : Response :=
  { status_code := 413,
    headers := [("Content-Type", "text/html; charset=utf-8")],
    cookies := [], fileName := none, streaming := false, parts := [],
    content := "413 Payload too large".data.map Char.toNat }

/-- Python `create_request(scope, body_file)`: `(some request, none)` on success,
`(none, some response)` mapping `UnicodeDecodeError` to a 400 and
`RequestDataTooBig` to the 413 response. -/
def create_request (outcome : BuildOutcome) (req : RSGIRequestModel) :
    Option RSGIRequestModel × Option Response :=
  match outcome with
  | .ok => (some req, none)
  | .unicodeDecodeError => (none, some badRequestResponse)
  | .requestDataTooBig => (none, some payloadTooLargeResponse)

/-- What `await self.run_get_response(request)` does: return a response,
raise `RequestAborted`, or raise some other exception. -/
inductive PipelineOutcome where
  | response (r : Response)
  | requestAborted
  | otherError
  deriving DecidableEq, Repr

/-- How one run of `handle` terminates: normal return, or an exception
propagating out of it. -/
inductive HandleResult where
  | ok
  | raised
  deriving DecidableEq, Repr

/-- The environment of one `handle` run: every external choice the
coroutine's awaits can resolve to. `disconnectBeforePipelineReturn`
records whether the transport's client-disconnect notification resolved
before `run_get_response` returned. `sendAbortsAfter` makes the
`sendAbortsAfter`-th transport call during the emission of the pipeline's
response raise `RequestAborted` (a client that went away mid-send). -/
structure HandleEnv where
  bodyFetchRaises : Bool
  buildOutcome : BuildOutcome
  pipeline : PipelineOutcome
  fileSendRaises : Bool
  sendAbortsAfter : Option Nat
  disconnectBeforePipelineReturn : Bool
  deriving Repr

/-- Truncate an emission trace at the transport call that raises
`RequestAborted`, if any. -/
def truncateAt (abortAt : Option Nat) (tr : List Emit) : List Emit :=
  match abortAt with
  | none => tr
  | some n => tr.take n

/-- Python `RSGIHandler.handle(scope, protocol)` as a function from the request's
environment to the trace of transport response calls and the way the call
terminates. A body-fetch exception returns immediately; a failed
`create_request` sends the error response and returns without invoking
the pipeline; `RequestAborted` from the pipeline or from emission is
caught by `except RequestAborted: pass`; any other pipeline exception
propagates. The disconnect notification is never awaited by the code, so
no branch reads `disconnectBeforePipelineReturn`. -/
def handle (env : HandleEnv) (req : RSGIRequestModel) : List Emit × HandleResult :=
  if env.bodyFetchRaises then ([], .ok)
  else
    match create_request env.buildOutcome req with
    | (_, some errorResponse) => (send_response errorResponse env.fileSendRaises, .ok)
    | (_, none) =>
      match env.pipeline with
      | .requestAborted => ([], .ok)
      | .otherError => ([], .raised)
      | .response r =>
        (truncateAt env.sendAbortsAfter (send_response r env.fileSendRaises), .ok)

/-! Supporting lemmas -/

lemma initialHeaderNameCache_consistent : CacheConsistent initialHeaderNameCache := by
  decide

lemma get_normalized_header_name_eq_compute (cache : HeaderCache) (name : String)
    (h : CacheConsistent cache) :
    (get_normalized_header_name cache name).1 = computeHeaderName name := by
  unfold get_normalized_header_name
  cases hfind : cache.find? (fun p => p.1 = name) with
  | none => simp
  | some p =>
    have hmem := List.mem_of_find?_eq_some hfind
    have hname : p.1 = name := by
      have := List.find?_some hfind
      simpa using this
    simp [h p hmem, hname]

lemma get_normalized_header_name_preserves_consistent (cache : HeaderCache)
    (name : String) (h : CacheConsistent cache) :
    CacheConsistent (get_normalized_header_name cache name).2 := by
  unfold get_normalized_header_name
  cases hfind : cache.find? (fun p => p.1 = name) with
  | none =>
    intro p hp
    simp only [List.mem_append, List.mem_singleton] at hp
    rcases hp with hp | hp
    · exact h p hp
    · subst hp; rfl
  | some q => exact h

lemma Meta.get?_set_self (m : Meta) (k : String) (v : MetaVal) :
    (m.set k v).get? k = some v := by
  induction m with
  | nil => simp [Meta.set, Meta.get?, List.find?]
  | cons p rest ih =>
    by_cases h : p.1 = k
    · simp [Meta.set, h, Meta.get?, List.find?]
    · cases p with
      | mk k' v' =>
        simp only at h
        simp only [Meta.set, if_neg h]
        simpa [Meta.get?, List.find?, h] using ih

lemma Meta.get?_set_ne (m : Meta) (k k' : String) (v : MetaVal) (h : k' ≠ k) :
    (m.set k' v).get? k = m.get? k := by
  induction m with
  | nil => simp [Meta.set, Meta.get?, List.find?, h]
  | cons p rest ih =>
    cases p with
    | mk k₀ v₀ =>
      by_cases h0 : k₀ = k'
      · subst h0
        simp [Meta.set, Meta.get?, List.find?, h]
      · simp only [Meta.set, if_neg h0]
        by_cases h1 : k₀ = k
        · simp [Meta.get?, List.find?, h1]
        · simp only [Meta.get?, List.find?] at ih ⊢
          simpa [h1] using ih

lemma exists_suffix_of_isPrefixOf :
    ∀ (l₁ l₂ : List Char), l₁.isPrefixOf l₂ = true → ∃ t, l₂ = l₁ ++ t
  | [], l₂, _ => ⟨l₂, rfl⟩
  | a :: l₁, [], h => by simp [List.isPrefixOf] at h
  | a :: l₁, b :: l₂, h => by
    simp only [List.isPrefixOf, Bool.and_eq_true, beq_iff_eq] at h
    obtain ⟨t, ht⟩ := exists_suffix_of_isPrefixOf l₁ l₂ h.2
    exact ⟨t, by rw [h.1, ht]; rfl⟩

lemma removePrefixOnce_of_isPrefixOf (s p : String) (h : p.data.isPrefixOf s.data = true) :
    p ++ removePrefixOnce s p = s := by
  obtain ⟨t, ht⟩ := exists_suffix_of_isPrefixOf p.data s.data h
  apply String.ext
  rw [String.data_append]
  unfold removePrefixOnce
  simp only [h, if_true]
  rw [ht]
  congr 1
  exact List.drop_left p.data t

lemma removePrefixOnce_of_not_isPrefixOf (s p : String) (h : p.data.isPrefixOf s.data = false) :
    removePrefixOnce s p = s := by
  unfold removePrefixOnce
  simp [h]

lemma mkRSGIRequest_path_info (fsn : Option String) (scope : Scope) (cache : HeaderCache) :
    (mkRSGIRequest fsn scope cache).1.path_info =
      if ¬(scriptPrefixValue fsn scope).isEmpty then
        removePrefixOnce scope.path (scriptPrefixValue fsn scope)
      else scope.path := rfl

lemma mkRSGIRequest_path (fsn : Option String) (scope : Scope) (cache : HeaderCache) :
    (mkRSGIRequest fsn scope cache).1.path = scope.path := rfl

/-! C4 -/

/-- Claim C4: `get_normalized_header_name` maps `content-length` to
`CONTENT_LENGTH`, `content-type` to `CONTENT_TYPE`, and every other name
to `HTTP_` followed by the name uppercased with `-` replaced by `_`; on
any cache consistent with that computation — the pre-populated
`_HEADER_NAME_CACHE` is one — the returned key is exactly the computed
one and the updated cache stays consistent, so repeated calls with the
same input always return the same result: memoization never changes it. -/
theorem get_normalized_header_name_policy (cache : HeaderCache) (name : String)
    (h : CacheConsistent cache) :
    (get_normalized_header_name cache name).1 = computeHeaderName name ∧
    CacheConsistent (get_normalized_header_name cache name).2 ∧
    CacheConsistent initialHeaderNameCache ∧
    computeHeaderName "content-length" = "CONTENT_LENGTH" ∧
    computeHeaderName "content-type" = "CONTENT_TYPE" ∧
    (name ≠ "content-length" → name ≠ "content-type" →
      computeHeaderName name = "HTTP_" ++ replaceDashUnderscore (pyUpper name)) := by
  refine ⟨get_normalized_header_name_eq_compute cache name h,
    get_normalized_header_name_preserves_consistent cache name h,
    initialHeaderNameCache_consistent, rfl, rfl, ?_⟩
  intro h1 h2
  simp [computeHeaderName, h1, h2]

/-- Claim C4 witness: the policy at the pre-populated cache and the name
`x-custom`, whose META key is `HTTP_X_CUSTOM`. -/
theorem get_normalized_header_name_policy_witness :
    (get_normalized_header_name initialHeaderNameCache "x-custom").1 = "HTTP_X_CUSTOM" := by
  have h := get_normalized_header_name_policy initialHeaderNameCache "x-custom"
    (by decide)
  rw [h.1]
  rfl

/-! C3 -/

/-- Claim C3: with `prefix` the script prefix (the override setting when
truthy, else the scope's root path), a non-empty `prefix` that starts the
path is removed exactly once to form `path_info`
(`prefix ++ path_info = path`, with `path_info` the remaining character
suffix); an empty or non-matching prefix leaves `path_info` equal to the
path unchanged. -/
theorem path_info_script_prefix_rule (fsn : Option String) (scope : Scope)
    (cache : HeaderCache) :
    (¬(scriptPrefixValue fsn scope).isEmpty →
      startswith scope.path (scriptPrefixValue fsn scope) = true →
      scriptPrefixValue fsn scope ++ (mkRSGIRequest fsn scope cache).1.path_info =
        scope.path) ∧
    ((scriptPrefixValue fsn scope).isEmpty ∨
      startswith scope.path (scriptPrefixValue fsn scope) = false →
      (mkRSGIRequest fsn scope cache).1.path_info = scope.path) := by
  constructor
  · intro hne hpre
    rw [mkRSGIRequest_path_info, if_pos hne]
    exact removePrefixOnce_of_isPrefixOf scope.path (scriptPrefixValue fsn scope) hpre
  · intro hcase
    rw [mkRSGIRequest_path_info]
    rcases hcase with hemp | hnot
    · simp [hemp]
    · by_cases hne : (scriptPrefixValue fsn scope).isEmpty
      · simp [hne]
      · rw [if_pos hne]
        exact removePrefixOnce_of_not_isPrefixOf scope.path (scriptPrefixValue fsn scope)
          (by simpa [startswith] using hnot)

/-- Claim C3 witness: the matching case on path `/prefix/foo/bar` with root
path `/prefix`, and the non-matching case on path `/other` with the same
root path. -/
theorem path_info_script_prefix_rule_witness :
    "/prefix" ++
        (mkRSGIRequest none
          { proto := "http", method := "GET", path := "/prefix/foo/bar",
            query_string := none, client := none, server := none,
            root_path := "/prefix", headers := [] }
          initialHeaderNameCache).1.path_info = "/prefix/foo/bar" ∧
    (mkRSGIRequest none
        { proto := "http", method := "GET", path := "/other",
          query_string := none, client := none, server := none,
          root_path := "/prefix", headers := [] }
        initialHeaderNameCache).1.path_info = "/other" := by
  constructor
  · exact (path_info_script_prefix_rule none
      { proto := "http", method := "GET", path := "/prefix/foo/bar",
        query_string := none, client := none, server := none,
        root_path := "/prefix", headers := [] }
      initialHeaderNameCache).1 (by decide) (by decide)
  · exact (path_info_script_prefix_rule none
      { proto := "http", method := "GET", path := "/other",
        query_string := none, client := none, server := none,
        root_path := "/prefix", headers := [] }
      initialHeaderNameCache).2 (Or.inr (by decide))

/-! Preservation of non-header META keys through the header loop -/

lemma data_HTTP_append (s : String) :
    ("HTTP_" ++ s).data = 'H' :: 'T' :: 'T' :: 'P' :: '_' :: s.data := by
  rw [String.data_append]
  rfl

lemma computeHeaderName_ne (name k : String) (h1 : "CONTENT_LENGTH" ≠ k)
    (h2 : "CONTENT_TYPE" ≠ k) (h3 : k.data.head? ≠ some 'H') :
    computeHeaderName name ≠ k := by
  unfold computeHeaderName
  split
  · exact h1
  · split
    · exact h2
    · intro he
      apply h3
      rw [← he, data_HTTP_append]
      rfl

lemma headersLoop_get?_preserved (hs : List (String × List String)) (m : Meta)
    (cache : HeaderCache) (k : String) (hc : CacheConsistent cache)
    (h1 : "CONTENT_LENGTH" ≠ k) (h2 : "CONTENT_TYPE" ≠ k)
    (h3 : k.data.head? ≠ some 'H') :
    (headersLoop m cache hs).1.get? k = m.get? k := by
  induction hs generalizing m cache with
  | nil => rfl
  | cons p rest ih =>
    cases p with
    | mk name values =>
      show (headersLoop (processHeaderEntry m (get_normalized_header_name cache name).1 values)
        (get_normalized_header_name cache name).2 rest).1.get? k = m.get? k
      rw [ih _ _ (get_normalized_header_name_preserves_consistent cache name hc)]
      unfold processHeaderEntry
      rw [Meta.get?_set_ne]
      rw [get_normalized_header_name_eq_compute cache name hc]
      exact computeHeaderName_ne name k h1 h2 h3

lemma setServerMeta_get?_other (m : Meta) (srv : Option String) (k : String)
    (h1 : k ≠ "SERVER_NAME") (h2 : k ≠ "SERVER_PORT") :
    (setServerMeta m srv).get? k = m.get? k := by
  unfold setServerMeta
  cases srv with
  | none =>
    rw [Meta.get?_set_ne _ _ _ _ (Ne.symm h2), Meta.get?_set_ne _ _ _ _ (Ne.symm h1)]
  | some s =>
    dsimp only
    split
    · rw [Meta.get?_set_ne _ _ _ _ (Ne.symm h2), Meta.get?_set_ne _ _ _ _ (Ne.symm h1)]
    · split
      · rw [Meta.get?_set_ne _ _ _ _ (Ne.symm h1)]
      · rw [Meta.get?_set_ne _ _ _ _ (Ne.symm h2), Meta.get?_set_ne _ _ _ _ (Ne.symm h1)]

lemma metaSeed_get?_none (fsn : Option String) (scope : Scope) (k : String)
    (h : k ∈ (["REMOTE_ADDR", "REMOTE_HOST", "REMOTE_PORT",
      "SERVER_NAME", "SERVER_PORT"] : List String)) :
    (metaSeed fsn scope).get? k = none := by
  fin_cases h <;> rfl

lemma mkRSGIRequest_get?_remote (fsn : Option String) (scope : Scope)
    (cache : HeaderCache) (k : String) (hc : CacheConsistent cache)
    (h1 : "CONTENT_LENGTH" ≠ k) (h2 : "CONTENT_TYPE" ≠ k)
    (h3 : k.data.head? ≠ some 'H') (h4 : k ≠ "SERVER_NAME")
    (h5 : k ≠ "SERVER_PORT") :
    (mkRSGIRequest fsn scope cache).1.meta.get? k =
      (setClientMeta (metaSeed fsn scope) scope.client).get? k := by
  show (headersLoop
      (setServerMeta (setClientMeta (metaSeed fsn scope) scope.client) scope.server)
      cache scope.headers).1.get? k = _
  rw [headersLoop_get?_preserved _ _ _ _ hc h1 h2 h3,
    setServerMeta_get?_other _ _ _ h4 h5]

lemma mkRSGIRequest_get?_server (fsn : Option String) (scope : Scope)
    (cache : HeaderCache) (k : String) (hc : CacheConsistent cache)
    (h1 : "CONTENT_LENGTH" ≠ k) (h2 : "CONTENT_TYPE" ≠ k)
    (h3 : k.data.head? ≠ some 'H') :
    (mkRSGIRequest fsn scope cache).1.meta.get? k =
      (setServerMeta (setClientMeta (metaSeed fsn scope) scope.client)
        scope.server).get? k := by
  show (headersLoop
      (setServerMeta (setClientMeta (metaSeed fsn scope) scope.client) scope.server)
      cache scope.headers).1.get? k = _
  rw [headersLoop_get?_preserved _ _ _ _ hc h1 h2 h3]

/-! C6 -/

/-- Claim C6: when the client address fails to parse as host:port no
`REMOTE_PORT` key is present; a client address without a colon yields
`REMOTE_ADDR` bound to the raw string; a scope with no server address
yields `SERVER_NAME = "unknown"` and `SERVER_PORT = "0"`. -/
theorem client_parse_failure_and_server_sentinels (fsn : Option String)
    (scope : Scope) (cache : HeaderCache) (c : String) (hc : CacheConsistent cache)
    (hclient : scope.client = some c) (hcne : c.isEmpty = false)
    (hserver : scope.server = none) :
    (rsplitColon1 c = none →
      (mkRSGIRequest fsn scope cache).1.meta.get? "REMOTE_ADDR" =
        some (.str c)) ∧
    ((rsplitColon1 c = none ∨
        ∃ hp : String × String, rsplitColon1 c = some hp ∧ pyInt? hp.2 = none) →
      (mkRSGIRequest fsn scope cache).1.meta.get? "REMOTE_PORT" = none) ∧
    (mkRSGIRequest fsn scope cache).1.meta.get? "SERVER_NAME" =
      some (.str "unknown") ∧
    (mkRSGIRequest fsn scope cache).1.meta.get? "SERVER_PORT" =
      some (.str "0") := by
  refine ⟨?_, ?_, ?_, ?_⟩
  · intro hsplit
    rw [mkRSGIRequest_get?_remote fsn scope cache _ hc (by decide) (by decide)
      (by decide) (by decide) (by decide)]
    simp only [setClientMeta, hclient, hcne, hsplit, Bool.false_eq_true, if_false]
    exact Meta.get?_set_self _ _ _
  · intro hfail
    rw [mkRSGIRequest_get?_remote fsn scope cache _ hc (by decide) (by decide)
      (by decide) (by decide) (by decide)]
    rcases hfail with hsplit | ⟨hp, hsplit, hbad⟩
    · simp only [setClientMeta, hclient, hcne, hsplit, Bool.false_eq_true, if_false]
      rw [Meta.get?_set_ne _ _ _ _ (by decide)]
      exact metaSeed_get?_none fsn scope _ (by decide)
    · cases hp with
      | mk host port =>
        simp only [setClientMeta, hclient, hcne, hsplit, hbad,
          Bool.false_eq_true, if_false]
        rw [Meta.get?_set_ne _ _ _ _ (by decide),
          Meta.get?_set_ne _ _ _ _ (by decide),
          Meta.get?_set_ne _ _ _ _ (by decide)]
        exact metaSeed_get?_none fsn scope _ (by decide)
  · rw [mkRSGIRequest_get?_server fsn scope cache _ hc (by decide) (by decide)
      (by decide)]
    simp only [setServerMeta, hserver]
    rw [Meta.get?_set_ne _ _ _ _ (by decide)]
    exact Meta.get?_set_self _ _ _
  · rw [mkRSGIRequest_get?_server fsn scope cache _ hc (by decide) (by decide)
      (by decide)]
    simp only [setServerMeta, hserver]
    exact Meta.get?_set_self _ _ _

/-- Claim C6 witness: client address `not-an-ip` (no colon) with no server
address, on the pre-populated cache. -/
theorem client_parse_failure_and_server_sentinels_witness :
    (mkRSGIRequest none
        { proto := "http", method := "GET", path := "/",
          query_string := none, client := some "not-an-ip", server := none,
          root_path := "", headers := [] }
        initialHeaderNameCache).1.meta.get? "REMOTE_ADDR" =
      some (.str "not-an-ip") ∧
    (mkRSGIRequest none
        { proto := "http", method := "GET", path := "/",
          query_string := none, client := some "not-an-ip", server := none,
          root_path := "", headers := [] }
        initialHeaderNameCache).1.meta.get? "REMOTE_PORT" = none ∧
    (mkRSGIRequest none
        { proto := "http", method := "GET", path := "/",
          query_string := none, client := some "not-an-ip", server := none,
          root_path := "", headers := [] }
        initialHeaderNameCache).1.meta.get? "SERVER_NAME" =
      some (.str "unknown") := by
  have h := client_parse_failure_and_server_sentinels none
    { proto := "http", method := "GET", path := "/",
      query_string := none, client := some "not-an-ip", server := none,
      root_path := "", headers := [] }
    initialHeaderNameCache "not-an-ip" (by decide) rfl (by decide) rfl
  exact ⟨h.1 (by decide), h.2.1 (Or.inl (by decide)), h.2.2.1⟩

/-! C10 -/

/-- Claim C10: a client address with a colon but a non-integer port leaves the
metadata partially populated: `REMOTE_HOST` is the part before the last
colon, `REMOTE_ADDR` is the entire raw client string, and no
`REMOTE_PORT` key is present. -/
theorem client_bad_port_population (fsn : Option String) (scope : Scope)
    (cache : HeaderCache) (c host port : String) (hc : CacheConsistent cache)
    (hclient : scope.client = some c) (hcne : c.isEmpty = false)
    (hsplit : rsplitColon1 c = some (host, port)) (hbad : pyInt? port = none) :
    (mkRSGIRequest fsn scope cache).1.meta.get? "REMOTE_HOST" =
      some (.str host) ∧
    (mkRSGIRequest fsn scope cache).1.meta.get? "REMOTE_ADDR" =
      some (.str c) ∧
    (mkRSGIRequest fsn scope cache).1.meta.get? "REMOTE_PORT" = none := by
  refine ⟨?_, ?_, ?_⟩
  · rw [mkRSGIRequest_get?_remote fsn scope cache _ hc (by decide) (by decide)
      (by decide) (by decide) (by decide)]
    simp only [setClientMeta, hclient, hcne, hsplit, hbad,
      Bool.false_eq_true, if_false]
    rw [Meta.get?_set_ne _ _ _ _ (by decide)]
    exact Meta.get?_set_self _ _ _
  · rw [mkRSGIRequest_get?_remote fsn scope cache _ hc (by decide) (by decide)
      (by decide) (by decide) (by decide)]
    simp only [setClientMeta, hclient, hcne, hsplit, hbad,
      Bool.false_eq_true, if_false]
    exact Meta.get?_set_self _ _ _
  · rw [mkRSGIRequest_get?_remote fsn scope cache _ hc (by decide) (by decide)
      (by decide) (by decide) (by decide)]
    simp only [setClientMeta, hclient, hcne, hsplit, hbad,
      Bool.false_eq_true, if_false]
    rw [Meta.get?_set_ne _ _ _ _ (by decide),
      Meta.get?_set_ne _ _ _ _ (by decide),
      Meta.get?_set_ne _ _ _ _ (by decide)]
    exact metaSeed_get?_none fsn scope _ (by decide)

/-- Claim C10 witness: client address `1.2.3.4:abc`. -/
theorem client_bad_port_population_witness :
    (mkRSGIRequest none
        { proto := "http", method := "GET", path := "/",
          query_string := none, client := some "1.2.3.4:abc", server := none,
          root_path := "", headers := [] }
        initialHeaderNameCache).1.meta.get? "REMOTE_HOST" =
      some (.str "1.2.3.4") ∧
    (mkRSGIRequest none
        { proto := "http", method := "GET", path := "/",
          query_string := none, client := some "1.2.3.4:abc", server := none,
          root_path := "", headers := [] }
        initialHeaderNameCache).1.meta.get? "REMOTE_ADDR" =
      some (.str "1.2.3.4:abc") ∧
    (mkRSGIRequest none
        { proto := "http", method := "GET", path := "/",
          query_string := none, client := some "1.2.3.4:abc", server := none,
          root_path := "", headers := [] }
        initialHeaderNameCache).1.meta.get? "REMOTE_PORT" = none :=
  client_bad_port_population none
    { proto := "http", method := "GET", path := "/",
      query_string := none, client := some "1.2.3.4:abc", server := none,
      root_path := "", headers := [] }
    initialHeaderNameCache "1.2.3.4:abc" "1.2.3.4" "abc" (by decide) rfl
    (by decide) (by decide) (by decide)

/-! C7 -/

/-- Claim C7: a non-cookie header's multiple values are joined with `,`
(`x-custom` valued `a` then `b` gives `HTTP_X_CUSTOM = "a,b"`, whether
the two values arrive under one wire name or under two distinct wire
names normalizing to the same key), and a later value for an
already-present non-cookie key is appended to the existing value with
`,` — cumulative merge, never overwrite. -/
theorem noncookie_header_join_and_merge :
    (∀ (m : Meta) (key : String) (values : List String),
      key ≠ "HTTP_COOKIE" → m.get? key = none →
      (processHeaderEntry m key values).get? key =
        some (.str (String.intercalate "," values))) ∧
    (∀ (m : Meta) (key prev : String) (values : List String),
      key ≠ "HTTP_COOKIE" → m.get? key = some (.str prev) →
      (processHeaderEntry m key values).get? key =
        some (.str (prev ++ "," ++ String.intercalate "," values))) ∧
    (mkRSGIRequest none
        { proto := "http", method := "GET", path := "/", query_string := none,
          client := none, server := none, root_path := "",
          headers := [("x-custom", ["a", "b"])] }
        initialHeaderNameCache).1.meta.get? "HTTP_X_CUSTOM" =
      some (.str "a,b") ∧
    (mkRSGIRequest none
        { proto := "http", method := "GET", path := "/", query_string := none,
          client := none, server := none, root_path := "",
          headers := [("x-custom", ["a"]), ("X-Custom", ["b"])] }
        initialHeaderNameCache).1.meta.get? "HTTP_X_CUSTOM" =
      some (.str "a,b") := by
  refine ⟨?_, ?_, rfl, rfl⟩
  · intro m key values hk hnone
    unfold processHeaderEntry
    simp only [hk, if_false, hnone]
    exact Meta.get?_set_self _ _ _
  · intro m key prev values hk hsome
    unfold processHeaderEntry
    simp only [hk, if_false, hsome]
    exact Meta.get?_set_self _ _ _

/-- Claim C7 witness: merging value `b` into an existing `HTTP_X_CUSTOM = "a"`
yields `"a,b"`. -/
theorem noncookie_header_join_and_merge_witness :
    (processHeaderEntry [("HTTP_X_CUSTOM", .str "a")] "HTTP_X_CUSTOM"
      ["b"]).get? "HTTP_X_CUSTOM" = some (.str "a,b") :=
  noncookie_header_join_and_merge.2.1 [("HTTP_X_CUSTOM", .str "a")]
    "HTTP_X_CUSTOM" "a" ["b"] (by decide) rfl

/-! C2 -/

/-- Claim C2 counterexample: two cookie values `"k=v; "` and `"k2=v2"` arriving
under the single wire name `cookie` are joined with `,` like any other
header, producing `HTTP_COOKIE = "k=v; ,k2=v2"`, not the claimed
`"k=v; k2=v2"`. -/
theorem cookie_same_name_join_counterexample :
    (mkRSGIRequest none
        { proto := "http", method := "GET", path := "/", query_string := none,
          client := none, server := none, root_path := "",
          headers := [("cookie", ["k=v; ", "k2=v2"])] }
        initialHeaderNameCache).1.meta.get? "HTTP_COOKIE" =
      some (.str "k=v; ,k2=v2") ∧
    ("k=v; ,k2=v2" : String) ≠ "k=v; k2=v2" :=
  ⟨rfl, by decide⟩

/-- Claim C2 (amended): values listed under one cookie wire name are joined
with `,` and the joined string right-stripped of `;`/space; the `"; "`
join applies only across separate wire entries normalizing to
`HTTP_COOKIE`, each entry right-trimmed before merging — so the two
cookie values under one name give `"k=v; ,k2=v2"`, while the same two
values under two distinct wire names (`cookie` then `Cookie`) give
`"k=v; k2=v2"` with no trailing `"; "`. -/
theorem cookie_join_rules :
    (∀ (m : Meta) (values : List String), m.get? "HTTP_COOKIE" = none →
      (processHeaderEntry m "HTTP_COOKIE" values).get? "HTTP_COOKIE" =
        some (.str (rstripSemiSpace (String.intercalate "," values)))) ∧
    (∀ (m : Meta) (prev : String) (values : List String),
      m.get? "HTTP_COOKIE" = some (.str prev) →
      (processHeaderEntry m "HTTP_COOKIE" values).get? "HTTP_COOKIE" =
        some (.str (prev ++ "; " ++ rstripSemiSpace (String.intercalate "," values)))) ∧
    (mkRSGIRequest none
        { proto := "http", method := "GET", path := "/", query_string := none,
          client := none, server := none, root_path := "",
          headers := [("cookie", ["k=v; "]), ("Cookie", ["k2=v2"])] }
        initialHeaderNameCache).1.meta.get? "HTTP_COOKIE" =
      some (.str "k=v; k2=v2") := by
  refine ⟨?_, ?_, rfl⟩
  · intro m values hnone
    unfold processHeaderEntry
    simp only [if_true, hnone]
    exact Meta.get?_set_self _ _ _
  · intro m prev values hsome
    unfold processHeaderEntry
    simp only [if_true, hsome]
    exact Meta.get?_set_self _ _ _

/-- Claim C2 witness: a first cookie entry valued `"k=v; "` against empty
metadata stores the right-stripped `"k=v"`. -/
theorem cookie_join_rules_witness :
    (processHeaderEntry [] "HTTP_COOKIE" ["k=v; "]).get? "HTTP_COOKIE" =
      some (.str "k=v") :=
  cookie_join_rules.1 [] ["k=v; "] rfl

/-! C8 -/

/-- Claim C8: for a file-backed response the zero-copy `response_file`
primitive is attempted first; on success emission is that single call
and nothing further is sent; if the attempt raises, the failure is
swallowed and emission falls through to the streaming or buffered path,
which never itself calls the file primitive (no double-send). -/
theorem file_response_send_policy (r : Response) (f : String)
    (hf : r.fileName = some f) :
    send_response r false =
      [Emit.response_file r.status_code (responseWireHeaders r) f] ∧
    send_response r true =
      Emit.response_file_raised r.status_code (responseWireHeaders r) f ::
        genericEmits r ∧
    (∀ e ∈ genericEmits r, ∀ st hs fl, e ≠ Emit.response_file st hs fl) := by
  refine ⟨?_, ?_, ?_⟩
  · unfold send_response
    rw [hf]
    rfl
  · unfold send_response
    rw [hf]
    rfl
  · intro e he st hs fl
    unfold genericEmits at he
    by_cases hstream : r.streaming
    · simp only [hstream, if_true, List.mem_cons] at he
      rcases he with he | he
      · subst he; simp
      · obtain ⟨c, _, hc⟩ := List.mem_map.1 he
        subst hc
        cases c <;> simp
    · simp only [hstream, Bool.false_eq_true, if_false, List.mem_singleton] at he
      subst he; simp

/-- Claim C8 witness: a concrete file-backed streaming response. -/
theorem file_response_send_policy_witness :
    send_response
      { status_code := 200, headers := [("Content-Type", "text/x-python")],
        cookies := [], fileName := some "/tmp/f.py", streaming := true,
        parts := [Chunk.bytes [104, 105]], content := [] } false =
      [Emit.response_file 200 [("Content-Type", "text/x-python")] "/tmp/f.py"] :=
  (file_response_send_policy
    { status_code := 200, headers := [("Content-Type", "text/x-python")],
      cookies := [], fileName := some "/tmp/f.py", streaming := true,
      parts := [Chunk.bytes [104, 105]], content := [] } "/tmp/f.py" rfl).1

/-! C9 -/

/-- Claim C9: a `RequestAborted` raised by the pipeline call means nothing is
emitted; a `RequestAborted` raised at the `n`-th transport call while
emitting the pipeline's response leaves only the trace prefix before
that call; in both cases `handle` completes normally — the error never
propagates. -/
theorem request_aborted_suppressed (env : HandleEnv) (req : RSGIRequestModel)
    (hbody : env.bodyFetchRaises = false) (hbuild : env.buildOutcome = .ok) :
    (env.pipeline = .requestAborted → handle env req = ([], .ok)) ∧
    (∀ r n, env.pipeline = .response r → env.sendAbortsAfter = some n →
      handle env req = ((send_response r env.fileSendRaises).take n, .ok)) := by
  constructor
  · intro hpipe
    unfold handle
    rw [hbody, hbuild, hpipe]
    rfl
  · intro r n hpipe habort
    unfold handle
    rw [hbody, hbuild, hpipe]
    simp only [Bool.false_eq_true, if_false]
    unfold create_request truncateAt
    rw [habort]

/-- Claim C9 witness: a pipeline-raised abort at a concrete environment leaves
an empty trace and a normal completion. -/
theorem request_aborted_suppressed_witness :
    handle
      { bodyFetchRaises := false, buildOutcome := .ok,
        pipeline := .requestAborted, fileSendRaises := false,
        sendAbortsAfter := none, disconnectBeforePipelineReturn := false }
      { path := "/", script_name := "", path_info := "/", method := "GET",
        meta := [] } = ([], .ok) :=
  (request_aborted_suppressed
    { bodyFetchRaises := false, buildOutcome := .ok,
      pipeline := .requestAborted, fileSendRaises := false,
      sendAbortsAfter := none, disconnectBeforePipelineReturn := false }
    { path := "/", script_name := "", path_info := "/", method := "GET",
      meta := [] } rfl rfl).1 rfl

/-! C5 -/

/-- Claim C5: when request construction fails because the body exceeds the
configured maximum (modelled from the spec, see `buildOutcomeOfSpec`),
`handle` sends the synthetic 413 response with its fixed plain-text body;
when construction fails because bytes cannot be decoded as text, it
sends the synthetic 400 response; in both cases the trace and outcome
are the same for every pipeline, i.e. the pipeline is never invoked. -/
theorem oversized_and_undecodable_requests (env : HandleEnv)
    (req : RSGIRequestModel) (bodyLen maxBodySize : Nat) (decodable : Bool)
    (hbody : env.bodyFetchRaises = false)
    (hout : env.buildOutcome = buildOutcomeOfSpec bodyLen maxBodySize decodable) :
    (bodyLen > maxBodySize →
      handle env req =
        ([Emit.response_bytes 413 [("Content-Type", "text/html; charset=utf-8")]
          ("413 Payload too large".data.map Char.toNat)], .ok)) ∧
    (bodyLen ≤ maxBodySize → decodable = false →
      handle env req =
        ([Emit.response_bytes 400 [("Content-Type", "text/html; charset=utf-8")]
          []], .ok)) ∧
    (∀ p, bodyLen > maxBodySize ∨ decodable = false →
      handle { env with pipeline := p } req = handle env req) := by
  refine ⟨?_, ?_, ?_⟩
  · intro hgt
    have hb : env.buildOutcome = .requestDataTooBig := by
      rw [hout]
      simp [buildOutcomeOfSpec, hgt]
    unfold handle
    rw [hbody, hb]
    rfl
  · intro hle hdec
    have hb : env.buildOutcome = .unicodeDecodeError := by
      rw [hout]
      simp [buildOutcomeOfSpec, Nat.not_lt.2 hle, hdec]
    unfold handle
    rw [hbody, hb]
    rfl
  · intro p hcase
    have hb : env.buildOutcome = .requestDataTooBig ∨
        env.buildOutcome = .unicodeDecodeError := by
      rw [hout]
      rcases hcase with hgt | hdec
      · left; simp [buildOutcomeOfSpec, hgt]
      · by_cases hgt : bodyLen > maxBodySize
        · left; simp [buildOutcomeOfSpec, hgt]
        · right; simp [buildOutcomeOfSpec, hgt, hdec]
    unfold handle
    rcases hb with hb | hb <;> rw [hbody, hb] <;> rfl

/-- Claim C5 witness: a 2-byte body over a 1-byte maximum yields the 413
trace; an undecodable body within the maximum yields the 400 trace. -/
theorem oversized_and_undecodable_requests_witness :
    handle
      { bodyFetchRaises := false, buildOutcome := buildOutcomeOfSpec 2 1 true,
        pipeline := .requestAborted, fileSendRaises := false,
        sendAbortsAfter := none, disconnectBeforePipelineReturn := false }
      { path := "/", script_name := "", path_info := "/", method := "GET",
        meta := [] } =
      ([Emit.response_bytes 413 [("Content-Type", "text/html; charset=utf-8")]
        ("413 Payload too large".data.map Char.toNat)], .ok) ∧
    handle
      { bodyFetchRaises := false, buildOutcome := buildOutcomeOfSpec 1 1 false,
        pipeline := .requestAborted, fileSendRaises := false,
        sendAbortsAfter := none, disconnectBeforePipelineReturn := false }
      { path := "/", script_name := "", path_info := "/", method := "GET",
        meta := [] } =
      ([Emit.response_bytes 400 [("Content-Type", "text/html; charset=utf-8")]
        []], .ok) :=
  ⟨(oversized_and_undecodable_requests _
      { path := "/", script_name := "", path_info := "/", method := "GET",
        meta := [] } 2 1 true rfl rfl).1 (by decide),
   (oversized_and_undecodable_requests _
      { path := "/", script_name := "", path_info := "/", method := "GET",
        meta := [] } 1 1 false rfl rfl).2.1 (by decide) rfl⟩

/-! C1 -/

/-- Claim C1 counterexample: an environment in which the disconnect signal
resolves before the pipeline call returns and the pipeline then produces
a buffered 200 response; `handle` still invokes the `response_bytes`
emission primitive, so the claimed "no response-emission primitive is
invoked" fails. -/
theorem disconnect_before_return_counterexample :
    ({ bodyFetchRaises := false, buildOutcome := .ok,
       pipeline := .response
         { status_code := 200,
           headers := [("Content-Type", "text/html; charset=utf-8")],
           cookies := [], fileName := none, streaming := false, parts := [],
           content := "Hello World!".data.map Char.toNat },
       fileSendRaises := false, sendAbortsAfter := none,
       disconnectBeforePipelineReturn := true } :
       HandleEnv).disconnectBeforePipelineReturn = true ∧
    handle
      { bodyFetchRaises := false, buildOutcome := .ok,
        pipeline := .response
          { status_code := 200,
            headers := [("Content-Type", "text/html; charset=utf-8")],
            cookies := [], fileName := none, streaming := false, parts := [],
            content := "Hello World!".data.map Char.toNat },
        fileSendRaises := false, sendAbortsAfter := none,
        disconnectBeforePipelineReturn := true }
      { path := "/", script_name := "", path_info := "/", method := "GET",
        meta := [] } =
      ([Emit.response_bytes 200 [("Content-Type", "text/html; charset=utf-8")]
        ("Hello World!".data.map Char.toNat)], .ok) ∧
    [Emit.response_bytes 200 [("Content-Type", "text/html; charset=utf-8")]
        ("Hello World!".data.map Char.toNat)] ≠ ([] : List Emit) :=
  ⟨rfl, rfl, by decide⟩

/-- Claim C1 (amended): `handle` never awaits the disconnect notification —
its trace and outcome are identical for every value of the
disconnect-timing flag, and a pipeline that returns a response has that
response emitted regardless; only a `RequestAborted` raised by the
pipeline call (or during emission) is suppressed, the handling then
completing without raising and without (further) emission. -/
theorem disconnect_never_awaited (env : HandleEnv) (req : RSGIRequestModel) :
    (∀ b₁ b₂ : Bool,
      handle { env with disconnectBeforePipelineReturn := b₁ } req =
        handle { env with disconnectBeforePipelineReturn := b₂ } req) ∧
    (∀ r, env.bodyFetchRaises = false → env.buildOutcome = .ok →
      env.pipeline = .response r → env.sendAbortsAfter = none →
      handle env req = (send_response r env.fileSendRaises, .ok)) ∧
    (env.bodyFetchRaises = false → env.buildOutcome = .ok →
      env.pipeline = .requestAborted → handle env req = ([], .ok)) := by
  refine ⟨fun b₁ b₂ => rfl, ?_, ?_⟩
  · intro r hbody hbuild hpipe habort
    unfold handle
    rw [hbody, hbuild, hpipe]
    simp only [Bool.false_eq_true, if_false]
    unfold create_request truncateAt
    rw [habort]
  · intro hbody hbuild hpipe
    unfold handle
    rw [hbody, hbuild, hpipe]
    rfl

/-- Claim C1 (amended) witness: with the disconnect resolving first and a
buffered 200 response, `handle` emits the response and completes
normally. -/
theorem disconnect_never_awaited_witness :
    handle
      { bodyFetchRaises := false, buildOutcome := .ok,
        pipeline := .response
          { status_code := 200, headers := [], cookies := [],
            fileName := none, streaming := false, parts := [],
            content := [104, 105] },
        fileSendRaises := false, sendAbortsAfter := none,
        disconnectBeforePipelineReturn := true }
      { path := "/", script_name := "", path_info := "/", method := "GET",
        meta := [] } = ([Emit.response_bytes 200 [] [104, 105]], .ok) :=
  (disconnect_never_awaited _
    { path := "/", script_name := "", path_info := "/", method := "GET",
      meta := [] }).2.1
    { status_code := 200, headers := [], cookies := [], fileName := none,
      streaming := false, parts := [], content := [104, 105] }
    rfl rfl rfl rfl

end DjangoRsgi
